import Mathlib

/-
  Verification development for the python-executor-service repository.

  The embedding models Python strings as lists of Unicode codepoints,
  JSON-like Python values by the inductive `Json`, and the side effects of
  the reporting client by explicit call traces together with a transport
  oracle that decides, per issued call, whether the call succeeds or raises
  (and with which message).
-/

namespace ExecSvc

/-- Python strings, as lists of Unicode codepoints. -/
abbrev Str := List Nat

/-- Convert a Lean string literal to the codepoint-list representation. -/
def strLit (s : String) : Str := s.data.map Char.toNat

/-- `str.lower` on one codepoint (ASCII range, as exercised by adapter ids). -/
def pyToLowerN (c : Nat) : Nat := if 65 ≤ c ∧ c ≤ 90 then c + 32 else c

/-- Python `str.strip` default whitespace set: space, \t, \n, \r, \v, \f. -/
def pyIsSpaceN (c : Nat) : Bool :=
  decide (c = 32 ∨ c = 9 ∨ c = 10 ∨ c = 13 ∨ c = 11 ∨ c = 12)

/-- `str.lower` over a whole string. -/
def pyLowerN (s : Str) : Str := s.map pyToLowerN

/-- `str.strip`: drop leading and trailing whitespace. -/
def pyStripN (s : Str) : Str :=
  ((s.dropWhile pyIsSpaceN).reverse.dropWhile pyIsSpaceN).reverse

/-- JSON-like Python values (the payloads moved between the service layers). -/
inductive Json where
  | null : Json
  | bool (b : Bool) : Json
  | num (n : Int) : Json
  | str (s : Str) : Json
  | arr (xs : List Json) : Json
  | obj (fields : List (Str × Json)) : Json

/-- `dict.get` / `in` on a JSON object's field list (first match wins). -/
def dictGet {α : Type} (fs : List (Str × α)) (k : Str) : Option α :=
  match fs with
  | [] => none
  | (k', v) :: rest => if k' = k then some v else dictGet rest k

/-- Python truthiness of a JSON-like value. -/
def pyTruthy : Json → Bool
  | Json.null => false
  | Json.bool b => b
  | Json.num n => decide (n ≠ 0)
  | Json.str s => !s.isEmpty
  | Json.arr xs => !xs.isEmpty
  | Json.obj fs => !fs.isEmpty

/-- Truthiness of an optional Python dict (`None` and the empty dict are falsy). -/
def pyTruthyDict (d : Option (List (Str × Json))) : Bool :=
  match d with
  | none => false
  | some fs => !fs.isEmpty

/-- Iterating a Python value with `for`: lists yield elements, strings yield
one-character strings, dicts yield their keys; other values raise `TypeError`. -/
def jIter : Json → Except Str (List Json)
  | Json.arr xs => Except.ok xs
  | Json.str s => Except.ok (s.map (fun c => Json.str [c]))
  | Json.obj fs => Except.ok (fs.map (fun p => Json.str p.1))
  | _ => Except.error (strLit "TypeError: object is not iterable")

mutual

/-- Python `repr` of a JSON-like value (string escaping inside `repr` of a
string is not modelled; only quoting and container punctuation are). -/
def pyRepr : Json → Str
  | Json.null => strLit "None"
  | Json.bool true => strLit "True"
  | Json.bool false => strLit "False"
  | Json.num n => ((toString n).data.map Char.toNat)
  | Json.str s => 39 :: (s ++ [39])
  | Json.arr xs => 91 :: (pyReprSeq xs ++ [93])
  | Json.obj fs => 123 :: (pyReprObj fs ++ [125])

/-- Comma-separated `repr` of list elements. -/
def pyReprSeq : List Json → Str
  | [] => []
  | [x] => pyRepr x
  | x :: xs => pyRepr x ++ (44 :: 32 :: pyReprSeq xs)

/-- Comma-separated `repr` of dict items (keys are strings; their `repr`
is the quoted key). -/
def pyReprObj : List (Str × Json) → Str
  | [] => []
  | [(k, v)] => (39 :: (k ++ [39])) ++ (58 :: 32 :: pyRepr v)
  | (k, v) :: fs => (39 :: (k ++ [39])) ++ (58 :: 32 :: pyRepr v) ++ (44 :: 32 :: pyReprObj fs)

end

/-- Python `str()` of a JSON-like value: identity on strings, `repr`-like
otherwise (matching CPython for the atoms and containers involved). -/
def pyStr (j : Json) : Str :=
  match j with
  | Json.str s => s
  | _ => pyRepr j

/-- Decimal rendering of an integer (used in HTTP error messages). -/
def intToStr (n : Int) : Str := (toString n).data.map Char.toNat

/-- models.py: `ExecutionTask` dataclass.  The five identifier fields and
`contract_version` are declared `str` in the source and modelled as such. -/
structure ExecutionTask where
  taskId : Str
  executionRunId : Str
  robotPlanId : Str
  adapterId : Str
  targetPlatform : Str
  contractVersion : Str
  runtimeParameters : List (Str × Json)
  artifactRefs : List Json
  leaseExpiresAt : Option Str

/-- models.py: `LogEntry` dataclass. -/
structure LogEntry where
  message : Str
  level : Str
  code : Option Str
  data : Option (List (Str × Json))
  timestamp : Option Str

/-- models.py: `RunnerResult` dataclass. -/
structure RunnerResult where
  finalStatus : Str
  logs : List LogEntry
  artifacts : List Json
  measurements : List Json
  failure : Option (List (Str × Json))
  external : Option (List (Str × Json))

/-- runner_base.py: a runner takes a task and returns a result or raises. -/
abbrev TaskRunner := ExecutionTask → Except Str RunnerResult

/-- runner_registry.py: the registry's `_runners` mapping. -/
abbrev RunnerRegistry := List (Str × TaskRunner)

/-- runner_registry.py `RunnerRegistry.get`: normalise the adapter id with
`strip().lower()`, look it up, and raise `KeyError` when absent. -/
def RunnerRegistry.get (reg : RunnerRegistry) (adapterId : Str) : Except Str TaskRunner :=
  match dictGet reg (pyLowerN (pyStripN adapterId)) with
  | some r => Except.ok r
  | none => Except.error (strLit "No runner registered for adapter: " ++ adapterId)

/-- config.py: the `ExecutorConfig` dataclass fields used by the core. -/
structure ExecutorConfig where
  apiBaseUrl : Str
  executorId : Str
  executorToken : Str
  capabilities : List Str
  maxTasks : Int
  leaseDurationMs : Int
  pollIntervalMs : Int
  runOnce : Bool

/-- A reporting-client call as issued by the claim loop, recorded with the
arguments the loop passes to the client method. -/
inductive ReportCall where
  | heartbeat (taskId : Str) (sequence : Nat) (progress : Option (List (Str × Json)))
  | appendLogs (taskId : Str) (sequence : Nat) (entries : List LogEntry)
  | updateStatus (taskId : Str) (sequence : Nat) (status : Str)
      (failure : Option (List (Str × Json))) (external : Option (List (Str × Json)))
  | complete (taskId : Str) (sequence : Nat) (finalStatus : Str)
      (artifacts : List Json) (measurements : List Json)

/-- The sequence number carried by a reporting call. -/
def ReportCall.seq : ReportCall → Nat
  | ReportCall.heartbeat _ s _ => s
  | ReportCall.appendLogs _ s _ => s
  | ReportCall.updateStatus _ s _ _ _ => s
  | ReportCall.complete _ s _ _ _ => s

/-- Structural console log events emitted by `_log` in claim_loop.py. -/
inductive LogEvent where
  | taskClaimed (executorId taskId executionRunId adapterId : Str)
  | taskCompleted (executorId taskId executionRunId finalStatus : Str)
  | taskError (executorId taskId executionRunId errMsg : Str)
  | idle (executorId : Str)

/-- Transport oracle for one task's reporting calls: `none` means the call
succeeds, `some e` means it raises an exception with message `e`. -/
abbrev TEnv := ReportCall → Option Str

/-- The `progress` mapping sent with the first heartbeat. -/
def startingProgress : List (Str × Json) := [(strLit "state", Json.str (strLit "starting"))]

/-- The `task_claimed` structural log event. -/
def taskClaimedEvent (cfg : ExecutorConfig) (task : ExecutionTask) : LogEvent :=
  LogEvent.taskClaimed cfg.executorId task.taskId task.executionRunId task.adapterId

/-- The tail of `_process_task` after the optional `append_logs` step:
`update_status` (branching on `if result.failure:`, i.e. Python truthiness)
followed by `complete`.  `calls` are the calls already issued and `seq` is
the current sequence counter. -/
def statusAndComplete (env : TEnv) (cfg : ExecutorConfig) (task : ExecutionTask)
    (r : RunnerResult) (calls : List ReportCall) (seq : Nat) :
    List ReportCall × List LogEvent × Except Str Unit :=
  let us := if pyTruthyDict r.failure then
      ReportCall.updateStatus task.taskId seq (strLit "failed") r.failure r.external
    else
      ReportCall.updateStatus task.taskId seq (strLit "running") none r.external
  match env us with
  | some e => (calls ++ [us], [taskClaimedEvent cfg task], Except.error e)
  | none =>
    let cp := ReportCall.complete task.taskId (seq + 1) r.finalStatus r.artifacts r.measurements
    match env cp with
    | some e => (calls ++ [us, cp], [taskClaimedEvent cfg task], Except.error e)
    | none =>
      (calls ++ [us, cp],
       [taskClaimedEvent cfg task,
        LogEvent.taskCompleted cfg.executorId task.taskId task.executionRunId r.finalStatus],
       Except.ok ())

/-- claim_loop.py `ClaimLoop._process_task`: heartbeat with sequence 1, runner
resolution and invocation, then (on runner success) optional `append_logs`
followed by `update_status` and `complete`.  Any raise aborts with the error. -/
def processTask (env : TEnv) (cfg : ExecutorConfig) (reg : RunnerRegistry)
    (task : ExecutionTask) : List ReportCall × List LogEvent × Except Str Unit :=
  let hb := ReportCall.heartbeat task.taskId 1 (some startingProgress)
  match env hb with
  | some e => ([hb], [taskClaimedEvent cfg task], Except.error e)
  | none =>
    match RunnerRegistry.get reg task.adapterId with
    | Except.error e => ([hb], [taskClaimedEvent cfg task], Except.error e)
    | Except.ok runner =>
      match runner task with
      | Except.error e => ([hb], [taskClaimedEvent cfg task], Except.error e)
      | Except.ok r =>
        if r.logs.isEmpty then
          statusAndComplete env cfg task r [hb] 2
        else
          let al := ReportCall.appendLogs task.taskId 2 r.logs
          match env al with
          | some e => ([hb, al], [taskClaimedEvent cfg task], Except.error e)
          | none => statusAndComplete env cfg task r [hb, al] 3

/-- The `failure` mapping of the recovery status update in `run_cycle`. -/
def recoveryFailure (e : Str) : List (Str × Json) :=
  [(strLit "code", Json.str (strLit "EXECUTOR_EXCEPTION")),
   (strLit "class", Json.str (strLit "transient")),
   (strLit "message", Json.str e)]

/-- The best-effort recovery `update_status` call issued by `run_cycle`'s
exception handler (sequence sentinel 999999, `external` left at its default). -/
def recoveryCall (task : ExecutionTask) (e : Str) : ReportCall :=
  ReportCall.updateStatus task.taskId 999999 (strLit "failed") (some (recoveryFailure e)) none

/-- One iteration of `run_cycle`'s per-task loop body: process the task; on an
exception, log `task_error` and attempt the recovery call.  The transport
outcome of the recovery call is deliberately not consulted, mirroring
`except Exception: pass`.  The boolean reports whether the task counted
towards `processed`. -/
def handleTask (env : TEnv) (cfg : ExecutorConfig) (reg : RunnerRegistry)
    (task : ExecutionTask) : List ReportCall × List LogEvent × Bool :=
  match processTask env cfg reg task with
  | (calls, events, Except.ok _) => (calls, events, true)
  | (calls, events, Except.error e) =>
    (calls ++ [recoveryCall task e],
     events ++ [LogEvent.taskError cfg.executorId task.taskId task.executionRunId e],
     false)

/-- Per-cycle transport oracle: the first component indexes the position of
the task within the cycle (distinct tasks may be served differently). -/
abbrev CEnv := Nat → TEnv

/-- The per-task loop of `run_cycle`, threading the task index and summing the
processed count. -/
def runTasks (env : CEnv) (cfg : ExecutorConfig) (reg : RunnerRegistry) :
    Nat → List ExecutionTask → List ReportCall × List LogEvent × Nat
  | _, [] => ([], [], 0)
  | i, t :: ts =>
    let h := handleTask (env i) cfg reg t
    let rest := runTasks env cfg reg (i + 1) ts
    (h.1 ++ rest.1, h.2.1 ++ rest.2.1, (if h.2.2 then 1 else 0) + rest.2.2)

/-- claim_loop.py `ClaimLoop.run_cycle`.  `claimed` is the outcome of the
`claim_tasks` call (which sits outside the per-task try/except, so its
exception propagates with no calls issued). -/
def runCycle (env : CEnv) (cfg : ExecutorConfig) (reg : RunnerRegistry)
    (claimed : Except Str (List ExecutionTask)) :
    List ReportCall × List LogEvent × Except Str Nat :=
  match claimed with
  | Except.error e => ([], [], Except.error e)
  | Except.ok [] => ([], [LogEvent.idle cfg.executorId], Except.ok 0)
  | Except.ok (t :: ts) =>
    let r := runTasks env cfg reg 0 (t :: ts)
    (r.1, r.2.1, Except.ok r.2.2)

/-- Events of the perpetual loop: a cycle's outcome, or a suspension.  The
sleep duration is recorded in milliseconds; `run_forever` passes this value
divided by 1000 (as seconds) to `time.sleep`. -/
inductive LoopEvent where
  | cycleRun (calls : List ReportCall) (events : List LogEvent) (outcome : Except Str Nat)
  | sleepMs (ms : Int)

/-- The world seen by successive cycles: for each cycle index, the transport
oracle and the outcome of that cycle's `claim_tasks`. -/
abbrev CycleWorld := Nat → CEnv × Except Str (List ExecutionTask)

/-- claim_loop.py `ClaimLoop.run_forever`: `while True: run_cycle();
if run_once: return; sleep(max(100, poll_interval_ms) / 1000)`.  The fuel
argument truncates the unbounded loop; an uncaught cycle exception
propagates out. -/
def runForever (cfg : ExecutorConfig) (reg : RunnerRegistry) (world : CycleWorld) :
    Nat → List LoopEvent × Except Str Unit
  | 0 => ([], Except.ok ())
  | Nat.succ n =>
    let c := runCycle (world 0).1 cfg reg (world 0).2
    match c.2.2 with
    | Except.error e => ([LoopEvent.cycleRun c.1 c.2.1 (Except.error e)], Except.error e)
    | Except.ok m =>
      if cfg.runOnce then
        ([LoopEvent.cycleRun c.1 c.2.1 (Except.ok m)], Except.ok ())
      else
        let rest := runForever cfg reg (fun k => world (k + 1)) n
        (LoopEvent.cycleRun c.1 c.2.1 (Except.ok m) ::
           LoopEvent.sleepMs (max 100 cfg.pollIntervalMs) :: rest.1,
         rest.2)

/-- One outbound request issued by `CLClient._post` (always a POST to
`api_base_url ++ path` with a JSON body). -/
structure HttpRequest where
  path : Str
  payload : Json

/-- The server's reply to one request: either a success whose body has been
parsed to JSON (an empty body parses to the empty object in `_post`), or an
HTTP error with status code and decoded error body. -/
inductive HttpResponse where
  | success (body : Json)
  | failure (status : Int) (detail : Str)

/-- The message of the `RuntimeError` raised by `_post` on an `HTTPError`:
it embeds the HTTP status code, the path and the response body. -/
def httpErrorMsg (status : Int) (path : Str) (detail : Str) : Str :=
  strLit "HTTP " ++ intToStr status ++ strLit " " ++ path ++ strLit ": " ++ detail

/-- cl_client.py `CLClient._post`: issue exactly one outbound request and
either return the parsed body or raise carrying status and body. -/
def post (path : Str) (payload : Json) (resp : HttpResponse) :
    List HttpRequest × Except Str Json :=
  match resp with
  | HttpResponse.success body => ([⟨path, payload⟩], Except.ok body)
  | HttpResponse.failure status detail =>
    ([⟨path, payload⟩], Except.error (httpErrorMsg status path detail))

/-- `item[k]` for a field declared `str` in the `ExecutionTask` dataclass:
a missing key raises `KeyError`. -/
def reqStr (fs : List (Str × Json)) (k : Str) : Except Str Str :=
  match dictGet fs k with
  | none => Except.error (strLit "KeyError: " ++ k)
  | some (Json.str s) => Except.ok s
  | some _ => Except.error (strLit "non-string value for key: " ++ k)

/-- `item.get(k, d)` for a `str`-declared optional field. -/
def optStrD (fs : List (Str × Json)) (k : Str) (d : Str) : Except Str Str :=
  match dictGet fs k with
  | none => Except.ok d
  | some (Json.str s) => Except.ok s
  | some _ => Except.error (strLit "non-string value for key: " ++ k)

/-- `item.get(k, dict())` for the dict-declared `runtimeParameters` field. -/
def optObjD (fs : List (Str × Json)) (k : Str) : Except Str (List (Str × Json)) :=
  match dictGet fs k with
  | none => Except.ok []
  | some (Json.obj o) => Except.ok o
  | some _ => Except.error (strLit "non-mapping value for key: " ++ k)

/-- `item.get(k, list())` for the list-declared `artifactRefs` field. -/
def optArrD (fs : List (Str × Json)) (k : Str) : Except Str (List Json) :=
  match dictGet fs k with
  | none => Except.ok []
  | some (Json.arr xs) => Except.ok xs
  | some _ => Except.error (strLit "non-list value for key: " ++ k)

/-- `item.get("leaseExpiresAt")` for the `Optional[str]` lease field: absent
and JSON null both become `None`. -/
def optLease (fs : List (Str × Json)) (k : Str) : Except Str (Option Str) :=
  match dictGet fs k with
  | none => Except.ok none
  | some Json.null => Except.ok none
  | some (Json.str s) => Except.ok (some s)
  | some _ => Except.error (strLit "non-string value for key: " ++ k)

/-- Construction of one `ExecutionTask` from one claim-response item, as in
the loop body of `CLClient.claim_tasks`: the five identifier fields are
mandatory (`item[...]`), the rest are `item.get(...)` with defaults. -/
def parseTaskItem : Json → Except Str ExecutionTask
  | Json.obj fs => do
    let tid ← reqStr fs (strLit "taskId")
    let runId ← reqStr fs (strLit "executionRunId")
    let planId ← reqStr fs (strLit "robotPlanId")
    let aid ← reqStr fs (strLit "adapterId")
    let tp ← reqStr fs (strLit "targetPlatform")
    let cv ← optStrD fs (strLit "contractVersion") (strLit "execution-task/v1")
    let rp ← optObjD fs (strLit "runtimeParameters")
    let ar ← optArrD fs (strLit "artifactRefs")
    let lease ← optLease fs (strLit "leaseExpiresAt")
    Except.ok ⟨tid, runId, planId, aid, tp, cv, rp, ar, lease⟩
  | _ => Except.error (strLit "TypeError: item is not a mapping")

/-- The claim endpoint path. -/
def claimPath : Str := strLit "/execution-tasks/claim"

/-- The body sent by `claim_tasks`. -/
def claimPayload (cfg : ExecutorConfig) : Json :=
  Json.obj [(strLit "executorId", Json.str cfg.executorId),
            (strLit "capabilities", Json.arr (cfg.capabilities.map Json.str)),
            (strLit "maxTasks", Json.num cfg.maxTasks),
            (strLit "leaseDurationMs", Json.num cfg.leaseDurationMs)]

/-- `result.get("tasks", [])` followed by the per-item construction loop. -/
def parseClaimBody : Json → Except Str (List ExecutionTask)
  | Json.obj fs => do
    let items ← jIter ((dictGet fs (strLit "tasks")).getD (Json.arr []))
    items.mapM parseTaskItem
  | _ => Except.error (strLit "AttributeError: response body has no get method")

/-- cl_client.py `CLClient.claim_tasks`. -/
def claimTasks (cfg : ExecutorConfig) (resp : HttpResponse) :
    List HttpRequest × Except Str (List ExecutionTask) :=
  let p := post claimPath (claimPayload cfg) resp
  (p.1, p.2.bind parseClaimBody)

/-- Truthiness of an optional Python list. -/
def pyTruthyList {α : Type} (xs : Option (List α)) : Bool :=
  match xs with
  | none => false
  | some l => !l.isEmpty

/-- cl_client.py `CLClient.heartbeat` (serialisation: `progress` is included
only when truthy). -/
def heartbeat (cfg : ExecutorConfig) (task : ExecutionTask) (sequence : Nat)
    (progress : Option (List (Str × Json))) (resp : HttpResponse) :
    List HttpRequest × Except Str Json :=
  post (strLit "/execution-tasks/" ++ task.taskId ++ strLit "/heartbeat")
    (Json.obj ([(strLit "executorId", Json.str cfg.executorId),
                (strLit "sequence", Json.num (Int.ofNat sequence)),
                (strLit "status", Json.str (strLit "running"))] ++
               (if pyTruthyDict progress then
                  [(strLit "progress", Json.obj (progress.getD []))] else [])))
    resp

/-- The transmitted form of one `LogEntry`: `code` and `timestamp` only when
truthy, `data` when not `None`. -/
def logEntryPayload (entry : LogEntry) : Json :=
  Json.obj ([(strLit "message", Json.str entry.message),
             (strLit "level", Json.str entry.level)] ++
            (match entry.code with
             | some c => if c.isEmpty then [] else [(strLit "code", Json.str c)]
             | none => []) ++
            (match entry.data with
             | some d => [(strLit "data", Json.obj d)]
             | none => []) ++
            (match entry.timestamp with
             | some t => if t.isEmpty then [] else [(strLit "timestamp", Json.str t)]
             | none => []))

/-- cl_client.py `CLClient.append_logs`. -/
def appendLogs (cfg : ExecutorConfig) (task : ExecutionTask) (sequence : Nat)
    (entries : List LogEntry) (resp : HttpResponse) :
    List HttpRequest × Except Str Json :=
  post (strLit "/execution-tasks/" ++ task.taskId ++ strLit "/logs")
    (Json.obj [(strLit "executorId", Json.str cfg.executorId),
               (strLit "sequence", Json.num (Int.ofNat sequence)),
               (strLit "entries", Json.arr (entries.map logEntryPayload))])
    resp

/-- cl_client.py `CLClient.update_status` (`failure` and `external` included
only when truthy). -/
def updateStatus (cfg : ExecutorConfig) (task : ExecutionTask) (sequence : Nat)
    (status : Str) (failure : Option (List (Str × Json)))
    (external : Option (List (Str × Json))) (resp : HttpResponse) :
    List HttpRequest × Except Str Json :=
  post (strLit "/execution-tasks/" ++ task.taskId ++ strLit "/status")
    (Json.obj ([(strLit "executorId", Json.str cfg.executorId),
                (strLit "sequence", Json.num (Int.ofNat sequence)),
                (strLit "status", Json.str status)] ++
               (if pyTruthyDict failure then
                  [(strLit "failure", Json.obj (failure.getD []))] else []) ++
               (if pyTruthyDict external then
                  [(strLit "external", Json.obj (external.getD []))] else [])))
    resp

/-- cl_client.py `CLClient.complete` (`artifacts` and `measurements` included
only when truthy). -/
def complete (cfg : ExecutorConfig) (task : ExecutionTask) (sequence : Nat)
    (finalStatus : Str) (artifacts : Option (List Json))
    (measurements : Option (List Json)) (resp : HttpResponse) :
    List HttpRequest × Except Str Json :=
  post (strLit "/execution-tasks/" ++ task.taskId ++ strLit "/complete")
    (Json.obj ([(strLit "executorId", Json.str cfg.executorId),
                (strLit "sequence", Json.num (Int.ofNat sequence)),
                (strLit "finalStatus", Json.str finalStatus)] ++
               (if pyTruthyList artifacts then
                  [(strLit "artifacts", Json.arr (artifacts.getD []))] else []) ++
               (if pyTruthyList measurements then
                  [(strLit "measurements", Json.arr (measurements.getD []))] else [])))
    resp

/-- pylabrobot_bridge.py: the per-entry coercion inside `_coerce_result`'s
log loop; non-dict entries are skipped (`continue`). -/
def coerceLogEntry (j : Json) : Option LogEntry :=
  match j with
  | Json.obj e =>
    some { message := pyStr ((dictGet e (strLit "message")).getD (Json.str [])),
           level := pyStr ((dictGet e (strLit "level")).getD (Json.str (strLit "info"))),
           code := match dictGet e (strLit "code") with
                   | some Json.null => none
                   | some v => some (pyStr v)
                   | none => none,
           data := match dictGet e (strLit "data") with
                   | some (Json.obj d) => some d
                   | _ => none,
           timestamp := match dictGet e (strLit "timestamp") with
                        | some Json.null => none
                        | some v => some (pyStr v)
                        | none => none }
  | _ => none

/-- `str(payload.get("final_status", "failed"))` in `_coerce_result`. -/
def renderedFinalStatus (payload : List (Str × Json)) : Str :=
  pyStr ((dictGet payload (strLit "final_status")).getD (Json.str (strLit "failed")))

/-- Membership in the accepted terminal-status set of `_coerce_result`. -/
def isValidFinal (s : Str) : Bool :=
  s == strLit "completed" || s == strLit "failed" || s == strLit "canceled"

/-- pylabrobot_bridge.py `_coerce_result`: validate `final_status` against the
three accepted values, then coerce logs, artifacts, measurements, failure and
external with their isinstance guards. -/
def coerceResult (payload : List (Str × Json)) : Except Str RunnerResult :=
  let finalStatus := renderedFinalStatus payload
  if !(isValidFinal finalStatus) then
    Except.error (strLit "Invalid final_status from hook/command: " ++ finalStatus)
  else
    match jIter ((dictGet payload (strLit "logs")).getD (Json.arr [])) with
    | Except.error e => Except.error e
    | Except.ok items =>
      Except.ok
        { finalStatus := finalStatus,
          logs := items.filterMap coerceLogEntry,
          artifacts := match dictGet payload (strLit "artifacts") with
                       | some (Json.arr xs) => xs
                       | _ => [],
          measurements := match dictGet payload (strLit "measurements") with
                          | some (Json.arr xs) => xs
                          | _ => [],
          failure := match dictGet payload (strLit "failure") with
                     | some (Json.obj fs) => some fs
                     | _ => none,
          external := match dictGet payload (strLit "external") with
                      | some (Json.obj fs) => some fs
                      | _ => none }

/-- pylabrobot_bridge.py `run_integra_task`: the pylabrobot import and the
configured command/hook invocation either raise or deliver a dict payload;
that external step is abstracted as the `bridge` oracle, and its payload then
passes through `_coerce_result`. -/
def runIntegraTask (bridge : Except Str (List (Str × Json)))
    (_task : ExecutionTask) : Except Str RunnerResult :=
  bridge.bind coerceResult

/-- The environment-derived inputs of `IntegraAssistRunner.run` and of the
bridge it may call. -/
structure IntegraEnv where
  /-- `INTEGRA_ASSIST_BACKEND` as returned by `os.getenv` (default applied). -/
  backendRaw : Str
  /-- `INTEGRA_ASSIST_SIMULATE` as returned by `os.getenv` (default "1"). -/
  simulateRaw : Str
  /-- Outcome of the pylabrobot import plus command/hook step: a raised
  exception's message, or the dict payload it produced. -/
  bridge : Except Str (List (Str × Json))
  /-- `_iso_now()` timestamps. -/
  now : Str

/-- The `RunnerResult` built by the simulation branch of
`IntegraAssistRunner.run` (the `time.sleep` there only spends time and is not
modelled). -/
def simulatedResult (now backend : Str) (task : ExecutionTask) : RunnerResult :=
  { finalStatus := strLit "completed",
    logs := [{ message := strLit "Simulated INTEGRA run for " ++ task.robotPlanId,
               level := strLit "info",
               code := some (strLit "SIMULATED_RUN"),
               data := some [(strLit "adapter", Json.str task.adapterId),
                             (strLit "taskId", Json.str task.taskId),
                             (strLit "backend", Json.str backend)],
               timestamp := some now }],
    artifacts := [Json.obj [(strLit "role", Json.str (strLit "telemetry_csv")),
                            (strLit "uri", Json.str (strLit "records/artifacts/" ++
                              task.executionRunId ++ strLit "/telemetry.csv"))]],
    measurements := [],
    failure := none,
    external := some [(strLit "runId", Json.str (strLit "sim-" ++ task.taskId)),
                      (strLit "rawStatus", Json.str (strLit "completed"))] }

/-- The `RunnerResult` built when the pylabrobot branch catches an exception. -/
def pylabrobotFailureResult (now e : Str) : RunnerResult :=
  { finalStatus := strLit "failed",
    logs := [{ message := strLit "pylabrobot execution failed: " ++ e,
               level := strLit "error",
               code := some (strLit "PYLABROBOT_EXECUTION_FAILED"),
               data := none,
               timestamp := some now }],
    artifacts := [],
    measurements := [],
    failure := some [(strLit "code", Json.str (strLit "PYLABROBOT_EXECUTION_FAILED")),
                     (strLit "class", Json.str (strLit "transient")),
                     (strLit "message", Json.str e)],
    external := none }

/-- `os.getenv("INTEGRA_ASSIST_BACKEND", "simulate").strip().lower() or
"simulate"` in `IntegraAssistRunner.run` (an empty normalised value falls
back to "simulate" through `or`). -/
def normBackend (raw : Str) : Str :=
  let b := pyLowerN (pyStripN raw)
  if b.isEmpty then strLit "simulate" else b

/-- The `force_simulate` flag of `IntegraAssistRunner.run`. -/
def integraForce (ienv : IntegraEnv) (task : ExecutionTask) : Bool :=
  (ienv.simulateRaw == strLit "1") ||
    pyTruthy ((dictGet task.runtimeParameters (strLit "simulate")).getD Json.null)

/-- runners/integra_assist.py `IntegraAssistRunner.run`. -/
def integraRun (ienv : IntegraEnv) : TaskRunner := fun task =>
  let backend := normBackend ienv.backendRaw
  let forceSimulate := integraForce ienv task
  if backend == strLit "pylabrobot" && !forceSimulate then
    match runIntegraTask ienv.bridge task with
    | Except.ok r => Except.ok r
    | Except.error e => Except.ok (pylabrobotFailureResult ienv.now e)
  else
    Except.ok (simulatedResult ienv.now backend task)

/-- runner_registry.py `RunnerRegistry.__init__`: the fixed runner table. -/
def defaultRegistry (ienv : IntegraEnv) : RunnerRegistry :=
  [(strLit "integra_assist", integraRun ienv)]

/-- Two strings differ at most in letter case: same length and pointwise
equal after `lower`. -/
def caseVariant : Str → Str → Bool
  | [], [] => true
  | c :: cs, d :: ds => (pyToLowerN c == pyToLowerN d) && caseVariant cs ds
  | _, _ => false

/-- Recogniser for `complete` reporting calls. -/
def isCompleteCall : ReportCall → Bool
  | ReportCall.complete _ _ _ _ _ => true
  | _ => false

/-- Recogniser for `append_logs` reporting calls. -/
def isAppendLogsCall : ReportCall → Bool
  | ReportCall.appendLogs _ _ _ => true
  | _ => false

/- Concrete fixtures used by witnesses and counterexamples. -/

/-- A concrete configuration. -/
def exCfg : ExecutorConfig :=
  { apiBaseUrl := strLit "http://localhost:3001/api", executorId := strLit "pyexec-01",
    executorToken := [], capabilities := [strLit "integra_assist"], maxTasks := 1,
    leaseDurationMs := 60000, pollIntervalMs := 2000, runOnce := false }

/-- The concrete configuration with `run_once` enabled. -/
def exCfgOnce : ExecutorConfig := { exCfg with runOnce := true }

/-- A concrete task routed to adapter id "a". -/
def exTask : ExecutionTask :=
  { taskId := strLit "t1", executionRunId := strLit "r1", robotPlanId := strLit "p1",
    adapterId := strLit "a", targetPlatform := strLit "x",
    contractVersion := strLit "execution-task/v1",
    runtimeParameters := [], artifactRefs := [], leaseExpiresAt := none }

/-- A concrete task whose adapter id is registered nowhere. -/
def exBadTask : ExecutionTask := { exTask with taskId := strLit "t0", adapterId := strLit "zzz" }

/-- A runner result with no logs, terminal status "completed", and `failure`
set to the empty dict (which Python treats as falsy). -/
def exResultFD : RunnerResult :=
  { finalStatus := strLit "completed", logs := [], artifacts := [], measurements := [],
    failure := some [], external := none }

/-- A runner that returns `exResultFD`. -/
def exRunnerFD : TaskRunner := fun _ => Except.ok exResultFD

/-- A registry holding `exRunnerFD` under adapter id "a". -/
def exReg : RunnerRegistry := [(strLit "a", exRunnerFD)]

/-- A transport oracle on which every reporting call succeeds. -/
def envAllOk : TEnv := fun _ => none

/-- The all-success per-cycle oracle. -/
def cenvAllOk : CEnv := fun _ => envAllOk

/-- A transport oracle on which the heartbeat raises and all else succeeds. -/
def envHbFail : TEnv := fun c =>
  match c with
  | ReportCall.heartbeat _ _ _ => some (strLit "boom")
  | _ => none

/-- A concrete environment for the INTEGRA runner: backend unset (defaults to
simulation), simulation forced, no bridge payload needed. -/
def exIntegraEnv : IntegraEnv :=
  { backendRaw := strLit "simulate", simulateRaw := strLit "1",
    bridge := Except.ok [], now := strLit "T" }

/-- A concrete task addressed to the integra_assist adapter. -/
def exIntegraTask : ExecutionTask := { exTask with adapterId := strLit "integra_assist" }

/-- A cycle world that always claims nothing. -/
def exWorld : CycleWorld := fun _ => (cenvAllOk, Except.ok [])

/-- A claim-response item carrying only the five mandatory fields. -/
def exMinItemFields : List (Str × Json) :=
  [(strLit "taskId", Json.str (strLit "t1")),
   (strLit "executionRunId", Json.str (strLit "r1")),
   (strLit "robotPlanId", Json.str (strLit "p1")),
   (strLit "adapterId", Json.str (strLit "a")),
   (strLit "targetPlatform", Json.str (strLit "x"))]

/-- The task built from `exMinItemFields` with every optional field defaulted. -/
def exMinTask : ExecutionTask :=
  { taskId := strLit "t1", executionRunId := strLit "r1", robotPlanId := strLit "p1",
    adapterId := strLit "a", targetPlatform := strLit "x",
    contractVersion := strLit "execution-task/v1",
    runtimeParameters := [], artifactRefs := [], leaseExpiresAt := none }

/-- A claim-response item with mixed optional presence: the five mandatory
fields plus `runtimeParameters`; the other three optional fields absent. -/
def exMixedItemFields : List (Str × Json) :=
  exMinItemFields ++
    [(strLit "runtimeParameters", Json.obj [(strLit "mode", Json.str (strLit "fast"))])]

/-- The task built from `exMixedItemFields`: the present optional field is
kept, each absent one is defaulted. -/
def exMixedTask : ExecutionTask :=
  { exMinTask with runtimeParameters := [(strLit "mode", Json.str (strLit "fast"))] }

/-- C5: a cycle whose claim returns the empty sequence issues zero reporting
calls, emits only the "idle" structural log event, and returns 0. -/
theorem C5_idle_cycle (env : CEnv) (cfg : ExecutorConfig) (reg : RunnerRegistry) :
    runCycle env cfg reg (Except.ok []) =
      ([], [LogEvent.idle cfg.executorId], Except.ok 0) := rfl

/-- C9: when `claim_tasks` itself raises, the exception propagates out of
`run_cycle` with no per-task processing, no reporting or recovery calls, no
structural log events, and no returned count. -/
theorem C9_claim_error_propagates (env : CEnv) (cfg : ExecutorConfig)
    (reg : RunnerRegistry) (e : Str) :
    runCycle env cfg reg (Except.error e) = ([], [], Except.error e) := rfl

/-- C8: with `run_once` set, `run_forever` executes exactly one cycle and
returns without sleeping; with `run_once` unset, after a completed cycle it
suspends for `max 100 poll_interval_ms` milliseconds before the next cycle. -/
theorem C8_run_forever (cfg : ExecutorConfig) (reg : RunnerRegistry)
    (world : CycleWorld) (n : Nat) :
    (cfg.runOnce = true →
       runForever cfg reg world (n + 1) =
         ([LoopEvent.cycleRun (runCycle (world 0).1 cfg reg (world 0).2).1
             (runCycle (world 0).1 cfg reg (world 0).2).2.1
             (runCycle (world 0).1 cfg reg (world 0).2).2.2],
          Except.map (fun _ => ()) (runCycle (world 0).1 cfg reg (world 0).2).2.2))
    ∧ (cfg.runOnce = false →
       ∀ m : Nat, (runCycle (world 0).1 cfg reg (world 0).2).2.2 = Except.ok m →
         runForever cfg reg world (n + 1) =
           (LoopEvent.cycleRun (runCycle (world 0).1 cfg reg (world 0).2).1
              (runCycle (world 0).1 cfg reg (world 0).2).2.1 (Except.ok m) ::
              LoopEvent.sleepMs (max 100 cfg.pollIntervalMs) ::
              (runForever cfg reg (fun k => world (k + 1)) n).1,
            (runForever cfg reg (fun k => world (k + 1)) n).2)) := by
  constructor
  · intro h1
    simp only [runForever]
    cases hout : (runCycle (world 0).1 cfg reg (world 0).2).2.2 with
    | error e => simp [Except.map]
    | ok m => simp [h1, Except.map]
  · intro h1 m hm
    simp only [runForever]
    rw [hm]
    simp [h1]

/-- Witness for C8 at concrete inputs: one idle cycle with and without
`run_once`. -/
theorem C8_run_forever_witness :
    exCfgOnce.runOnce = true
    ∧ runForever exCfgOnce exReg exWorld 1 =
        ([LoopEvent.cycleRun (runCycle (exWorld 0).1 exCfgOnce exReg (exWorld 0).2).1
            (runCycle (exWorld 0).1 exCfgOnce exReg (exWorld 0).2).2.1
            (runCycle (exWorld 0).1 exCfgOnce exReg (exWorld 0).2).2.2],
         Except.map (fun _ => ())
           (runCycle (exWorld 0).1 exCfgOnce exReg (exWorld 0).2).2.2)
    ∧ exCfg.runOnce = false
    ∧ (runCycle (exWorld 0).1 exCfg exReg (exWorld 0).2).2.2 = Except.ok 0
    ∧ runForever exCfg exReg exWorld 1 =
        (LoopEvent.cycleRun (runCycle (exWorld 0).1 exCfg exReg (exWorld 0).2).1
           (runCycle (exWorld 0).1 exCfg exReg (exWorld 0).2).2.1 (Except.ok 0) ::
           LoopEvent.sleepMs (max 100 exCfg.pollIntervalMs) ::
           (runForever exCfg exReg (fun k => exWorld (k + 1)) 0).1,
         (runForever exCfg exReg (fun k => exWorld (k + 1)) 0).2) :=
  ⟨rfl, (C8_run_forever exCfgOnce exReg exWorld 0).1 rfl, rfl, rfl,
   (C8_run_forever exCfg exReg exWorld 0).2 rfl 0 rfl⟩

/-- Codepoints with equal `lower` images agree on being stripping whitespace
(no uppercase letter lowercases into the whitespace set). -/
theorem pyToLowerN_space_eq {c d : Nat} (h : pyToLowerN c = pyToLowerN d) :
    pyIsSpaceN c = pyIsSpaceN d := by
  unfold pyToLowerN at h
  unfold pyIsSpaceN
  rw [decide_eq_decide]
  split at h <;> split at h <;> omega

/-- `caseVariant` on cons heads and tails. -/
theorem caseVariant_cons {c d : Nat} {cs ds : Str}
    (h : caseVariant (c :: cs) (d :: ds) = true) :
    pyToLowerN c = pyToLowerN d ∧ caseVariant cs ds = true := by
  simpa [caseVariant, Bool.and_eq_true, beq_iff_eq] using h

/-- `caseVariant` is preserved by appending related lists. -/
theorem caseVariant_append {a b x y : Str} (h1 : caseVariant a b = true)
    (h2 : caseVariant x y = true) : caseVariant (a ++ x) (b ++ y) = true := by
  induction a generalizing b with
  | nil =>
    cases b with
    | nil => simpa using h2
    | cons d ds => simp [caseVariant] at h1
  | cons c cs ih =>
    cases b with
    | nil => simp [caseVariant] at h1
    | cons d ds =>
      obtain ⟨hh, ht⟩ := caseVariant_cons h1
      simp [caseVariant, beq_iff_eq, hh, ih ht]

/-- `caseVariant` is preserved by `List.reverse`. -/
theorem caseVariant_reverse {a b : Str} (h : caseVariant a b = true) :
    caseVariant a.reverse b.reverse = true := by
  induction a generalizing b with
  | nil =>
    cases b with
    | nil => simpa using h
    | cons d ds => simp [caseVariant] at h
  | cons c cs ih =>
    cases b with
    | nil => simp [caseVariant] at h
    | cons d ds =>
      obtain ⟨hh, ht⟩ := caseVariant_cons h
      rw [List.reverse_cons, List.reverse_cons]
      exact caseVariant_append (ih ht) (by simp [caseVariant, beq_iff_eq, hh])

/-- `caseVariant` is preserved by dropping leading whitespace. -/
theorem caseVariant_dropWhile {a b : Str} (h : caseVariant a b = true) :
    caseVariant (a.dropWhile pyIsSpaceN) (b.dropWhile pyIsSpaceN) = true := by
  induction a generalizing b with
  | nil =>
    cases b with
    | nil => simpa using h
    | cons d ds => simp [caseVariant] at h
  | cons c cs ih =>
    cases b with
    | nil => simp [caseVariant] at h
    | cons d ds =>
      obtain ⟨hh, ht⟩ := caseVariant_cons h
      rw [List.dropWhile_cons, List.dropWhile_cons, ← pyToLowerN_space_eq hh]
      by_cases hc : pyIsSpaceN c = true
      · rw [if_pos hc, if_pos hc]
        exact ih ht
      · rw [if_neg hc, if_neg hc]
        exact h

/-- `caseVariant` strings have the same `lower` image. -/
theorem caseVariant_lower {a b : Str} (h : caseVariant a b = true) :
    pyLowerN a = pyLowerN b := by
  induction a generalizing b with
  | nil =>
    cases b with
    | nil => rfl
    | cons d ds => simp [caseVariant] at h
  | cons c cs ih =>
    cases b with
    | nil => simp [caseVariant] at h
    | cons d ds =>
      obtain ⟨hh, ht⟩ := caseVariant_cons h
      simp [pyLowerN] at ih ⊢
      exact ⟨hh, ih ht⟩

/-- Adapter ids differing only in letter case normalise to the same registry
key under `strip().lower()`. -/
theorem caseVariant_key {a b : Str} (h : caseVariant a b = true) :
    pyLowerN (pyStripN a) = pyLowerN (pyStripN b) := by
  unfold pyStripN
  exact caseVariant_lower (caseVariant_reverse (caseVariant_dropWhile
    (caseVariant_reverse (caseVariant_dropWhile h))))

/-- C6: registry lookup is case-insensitive on the adapter id (ids differing
only in letter case resolve identically), and deterministically raises
`KeyError` for every id whose normalised form is not a registry key.  The
lookup is modelled as a pure function of the immutable registry value, so it
cannot modify the registry and repeated lookups agree by construction. -/
theorem C6_registry_lookup :
    (∀ (reg : RunnerRegistry) (a b : Str), caseVariant a b = true →
       (RunnerRegistry.get reg a).toOption = (RunnerRegistry.get reg b).toOption)
    ∧ (∀ (reg : RunnerRegistry) (adapterId : Str),
       dictGet reg (pyLowerN (pyStripN adapterId)) = none →
       RunnerRegistry.get reg adapterId =
         Except.error (strLit "No runner registered for adapter: " ++ adapterId)) := by
  constructor
  · intro reg a b h
    unfold RunnerRegistry.get
    rw [caseVariant_key h]
    cases dictGet reg (pyLowerN (pyStripN b)) <;> rfl
  · intro reg adapterId h
    unfold RunnerRegistry.get
    rw [h]

/-- Witness for C6: "Integra_ASSIST" and "integra_assist" resolve to the same
runner in the default registry, and the unknown id "nope" raises. -/
theorem C6_registry_lookup_witness :
    caseVariant (strLit "Integra_ASSIST") (strLit "integra_assist") = true
    ∧ (RunnerRegistry.get (defaultRegistry exIntegraEnv) (strLit "Integra_ASSIST")).toOption =
        (RunnerRegistry.get (defaultRegistry exIntegraEnv) (strLit "integra_assist")).toOption
    ∧ dictGet (defaultRegistry exIntegraEnv) (pyLowerN (pyStripN (strLit "nope"))) = none
    ∧ RunnerRegistry.get (defaultRegistry exIntegraEnv) (strLit "nope") =
        Except.error (strLit "No runner registered for adapter: " ++ strLit "nope") :=
  ⟨by decide, C6_registry_lookup.1 (defaultRegistry exIntegraEnv) _ _ (by decide), rfl,
   C6_registry_lookup.2 (defaultRegistry exIntegraEnv) (strLit "nope") rfl⟩

/-- Bind on a successful `Except` computation. -/
theorem exceptBind_ok {α β : Type} (a : α) (f : α → Except Str β) :
    (Except.ok a : Except Str α) >>= f = f a := rfl

/-- Bind on a failed `Except` computation. -/
theorem exceptBind_error {α β : Type} (e : Str) (f : α → Except Str β) :
    (Except.error e : Except Str α) >>= f = Except.error e := rfl

/-- C7: `claim_tasks` returns the empty sequence when the response carries no
tasks; on a non-success response it fails with the error carrying the HTTP
status code and response body; and every client operation issues exactly one
outbound request (no retries at this layer). -/
theorem C7_claim_transport :
    (∀ (cfg : ExecutorConfig) (fs : List (Str × Json)),
       (dictGet fs (strLit "tasks") = none ∨
        dictGet fs (strLit "tasks") = some (Json.arr [])) →
       (claimTasks cfg (HttpResponse.success (Json.obj fs))).2 = Except.ok [])
    ∧ (∀ (cfg : ExecutorConfig) (status : Int) (detail : Str),
       (claimTasks cfg (HttpResponse.failure status detail)).2 =
         Except.error (httpErrorMsg status claimPath detail))
    ∧ (∀ (cfg : ExecutorConfig) (resp : HttpResponse), (claimTasks cfg resp).1.length = 1)
    ∧ (∀ (cfg : ExecutorConfig) (task : ExecutionTask) (n : Nat)
         (progress : Option (List (Str × Json))) (resp : HttpResponse),
       (heartbeat cfg task n progress resp).1.length = 1)
    ∧ (∀ (cfg : ExecutorConfig) (task : ExecutionTask) (n : Nat)
         (entries : List LogEntry) (resp : HttpResponse),
       (appendLogs cfg task n entries resp).1.length = 1)
    ∧ (∀ (cfg : ExecutorConfig) (task : ExecutionTask) (n : Nat) (status : Str)
         (failure external : Option (List (Str × Json))) (resp : HttpResponse),
       (updateStatus cfg task n status failure external resp).1.length = 1)
    ∧ (∀ (cfg : ExecutorConfig) (task : ExecutionTask) (n : Nat) (finalStatus : Str)
         (artifacts measurements : Option (List Json)) (resp : HttpResponse),
       (complete cfg task n finalStatus artifacts measurements resp).1.length = 1) := by
  refine ⟨?_, ?_, ?_, ?_, ?_, ?_, ?_⟩
  · intro cfg fs h
    show parseClaimBody (Json.obj fs) = Except.ok []
    rcases h with h | h <;> simp only [parseClaimBody] <;> rw [h] <;> rfl
  · intro cfg status detail
    rfl
  · intro cfg resp
    cases resp <;> rfl
  · intro cfg task n progress resp
    cases resp <;> rfl
  · intro cfg task n entries resp
    cases resp <;> rfl
  · intro cfg task n status failure external resp
    cases resp <;> rfl
  · intro cfg task n finalStatus artifacts measurements resp
    cases resp <;> rfl

/-- Witness for C7 at concrete inputs: an empty claim response and a 503. -/
theorem C7_claim_transport_witness :
    dictGet ([(strLit "tasks", Json.arr [])]) (strLit "tasks") = some (Json.arr [])
    ∧ (claimTasks exCfg (HttpResponse.success
         (Json.obj [(strLit "tasks", Json.arr [])]))).2 = Except.ok []
    ∧ (claimTasks exCfg (HttpResponse.failure 503 (strLit "busy"))).2 =
        Except.error (httpErrorMsg 503 claimPath (strLit "busy"))
    ∧ (claimTasks exCfg (HttpResponse.failure 503 (strLit "busy"))).1.length = 1 :=
  ⟨rfl,
   C7_claim_transport.1 exCfg [(strLit "tasks", Json.arr [])] (Or.inr rfl),
   C7_claim_transport.2.1 exCfg 503 (strLit "busy"),
   C7_claim_transport.2.2.1 exCfg (HttpResponse.failure 503 (strLit "busy"))⟩

/-- A successful mandatory-field read implies the key is present. -/
theorem reqStr_ok_isSome {fs : List (Str × Json)} {k : Str} {v : Str}
    (h : reqStr fs k = Except.ok v) : (dictGet fs k).isSome = true := by
  unfold reqStr at h
  cases hd : dictGet fs k with
  | none => rw [hd] at h; exact Except.noConfusion h
  | some j => rfl

/-- A parsed claim item has all five mandatory fields present. -/
theorem parseTaskItem_ok_required {fs : List (Str × Json)} {t : ExecutionTask}
    (hp : parseTaskItem (Json.obj fs) = Except.ok t) :
    (dictGet fs (strLit "taskId")).isSome = true ∧
    (dictGet fs (strLit "executionRunId")).isSome = true ∧
    (dictGet fs (strLit "robotPlanId")).isSome = true ∧
    (dictGet fs (strLit "adapterId")).isSome = true ∧
    (dictGet fs (strLit "targetPlatform")).isSome = true := by
  simp only [parseTaskItem] at hp
  cases h1 : reqStr fs (strLit "taskId") with
  | error e => rw [h1, exceptBind_error] at hp; exact Except.noConfusion hp
  | ok v1 =>
  rw [h1, exceptBind_ok] at hp
  cases h2 : reqStr fs (strLit "executionRunId") with
  | error e => rw [h2, exceptBind_error] at hp; exact Except.noConfusion hp
  | ok v2 =>
  rw [h2, exceptBind_ok] at hp
  cases h3 : reqStr fs (strLit "robotPlanId") with
  | error e => rw [h3, exceptBind_error] at hp; exact Except.noConfusion hp
  | ok v3 =>
  rw [h3, exceptBind_ok] at hp
  cases h4 : reqStr fs (strLit "adapterId") with
  | error e => rw [h4, exceptBind_error] at hp; exact Except.noConfusion hp
  | ok v4 =>
  rw [h4, exceptBind_ok] at hp
  cases h5 : reqStr fs (strLit "targetPlatform") with
  | error e => rw [h5, exceptBind_error] at hp; exact Except.noConfusion hp
  | ok v5 =>
  exact ⟨reqStr_ok_isSome h1, reqStr_ok_isSome h2, reqStr_ok_isSome h3,
         reqStr_ok_isSome h4, reqStr_ok_isSome h5⟩

/-- `mapM` over a one-element list. -/
theorem mapM_singleton (f : Json → Except Str ExecutionTask) (x : Json) :
    [x].mapM f = f x >>= fun t => Except.ok [t] := by
  cases hfx : f x <;> simp [List.mapM, List.mapM.loop, hfx] <;> rfl

/-- `claim_tasks` over a response with an explicit task array is the per-item
construction mapped over the items. -/
theorem claimTasks_items (cfg : ExecutorConfig) (items : List Json) :
    (claimTasks cfg (HttpResponse.success
        (Json.obj [(strLit "tasks", Json.arr items)]))).2 =
      items.mapM parseTaskItem := rfl

/-- An absent optional string field takes its default. -/
theorem optStrD_none {fs : List (Str × Json)} {k d : Str}
    (h : dictGet fs k = none) : optStrD fs k d = Except.ok d := by
  unfold optStrD; rw [h]

/-- An absent `runtimeParameters` field defaults to the empty mapping. -/
theorem optObjD_none {fs : List (Str × Json)} {k : Str}
    (h : dictGet fs k = none) : optObjD fs k = Except.ok [] := by
  unfold optObjD; rw [h]

/-- An absent `artifactRefs` field defaults to the empty sequence. -/
theorem optArrD_none {fs : List (Str × Json)} {k : Str}
    (h : dictGet fs k = none) : optArrD fs k = Except.ok [] := by
  unfold optArrD; rw [h]

/-- An absent lease field defaults to `None`. -/
theorem optLease_none {fs : List (Str × Json)} {k : Str}
    (h : dictGet fs k = none) : optLease fs k = Except.ok none := by
  unfold optLease; rw [h]

/-- C10: for every claim-response item that parses, each absent optional
field is filled with its default (contract version "execution-task/v1",
empty runtime parameters, empty artifact refs, absent lease) independently of
the other optional fields' presence, while an item missing any of the five
mandatory fields makes `claim_tasks` fail. -/
theorem C10_claim_item_fields :
    (∀ (fs : List (Str × Json)) (t : ExecutionTask),
       parseTaskItem (Json.obj fs) = Except.ok t →
       (dictGet fs (strLit "contractVersion") = none →
          t.contractVersion = strLit "execution-task/v1") ∧
       (dictGet fs (strLit "runtimeParameters") = none → t.runtimeParameters = []) ∧
       (dictGet fs (strLit "artifactRefs") = none → t.artifactRefs = []) ∧
       (dictGet fs (strLit "leaseExpiresAt") = none → t.leaseExpiresAt = none))
    ∧ (∀ (cfg : ExecutorConfig) (fs : List (Str × Json)) (k : Str),
       (k = strLit "taskId" ∨ k = strLit "executionRunId" ∨ k = strLit "robotPlanId" ∨
        k = strLit "adapterId" ∨ k = strLit "targetPlatform") →
       dictGet fs k = none →
       ((claimTasks cfg (HttpResponse.success
           (Json.obj [(strLit "tasks", Json.arr [Json.obj fs])]))).2).isOk = false) := by
  constructor
  · intro fs t hp
    simp only [parseTaskItem] at hp
    cases g1 : reqStr fs (strLit "taskId") with
    | error e => rw [g1, exceptBind_error] at hp; exact Except.noConfusion hp
    | ok v1 =>
    rw [g1, exceptBind_ok] at hp
    cases g2 : reqStr fs (strLit "executionRunId") with
    | error e => rw [g2, exceptBind_error] at hp; exact Except.noConfusion hp
    | ok v2 =>
    rw [g2, exceptBind_ok] at hp
    cases g3 : reqStr fs (strLit "robotPlanId") with
    | error e => rw [g3, exceptBind_error] at hp; exact Except.noConfusion hp
    | ok v3 =>
    rw [g3, exceptBind_ok] at hp
    cases g4 : reqStr fs (strLit "adapterId") with
    | error e => rw [g4, exceptBind_error] at hp; exact Except.noConfusion hp
    | ok v4 =>
    rw [g4, exceptBind_ok] at hp
    cases g5 : reqStr fs (strLit "targetPlatform") with
    | error e => rw [g5, exceptBind_error] at hp; exact Except.noConfusion hp
    | ok v5 =>
    rw [g5, exceptBind_ok] at hp
    cases g6 : optStrD fs (strLit "contractVersion") (strLit "execution-task/v1") with
    | error e => rw [g6, exceptBind_error] at hp; exact Except.noConfusion hp
    | ok cv =>
    rw [g6, exceptBind_ok] at hp
    cases g7 : optObjD fs (strLit "runtimeParameters") with
    | error e => rw [g7, exceptBind_error] at hp; exact Except.noConfusion hp
    | ok rp =>
    rw [g7, exceptBind_ok] at hp
    cases g8 : optArrD fs (strLit "artifactRefs") with
    | error e => rw [g8, exceptBind_error] at hp; exact Except.noConfusion hp
    | ok ar =>
    rw [g8, exceptBind_ok] at hp
    cases g9 : optLease fs (strLit "leaseExpiresAt") with
    | error e => rw [g9, exceptBind_error] at hp; exact Except.noConfusion hp
    | ok lease =>
    rw [g9, exceptBind_ok] at hp
    cases hp
    refine ⟨?_, ?_, ?_, ?_⟩
    · intro h
      rw [optStrD_none h] at g6
      exact (Except.ok.inj g6).symm
    · intro h
      rw [optObjD_none h] at g7
      exact (Except.ok.inj g7).symm
    · intro h
      rw [optArrD_none h] at g8
      exact (Except.ok.inj g8).symm
    · intro h
      rw [optLease_none h] at g9
      exact (Except.ok.inj g9).symm
  · intro cfg fs k hk h
    rw [claimTasks_items, mapM_singleton]
    cases hres : parseTaskItem (Json.obj fs) with
    | error e => rfl
    | ok t =>
      have hreq := parseTaskItem_ok_required hres
      rcases hk with rfl | rfl | rfl | rfl | rfl <;> simp [h] at hreq

/-- Witness for C10: a mixed-presence item (runtime parameters present, the
other optional fields absent) keeps the present field and defaults each
absent one, and dropping `taskId` makes `claim_tasks` fail. -/
theorem C10_claim_item_fields_witness :
    parseTaskItem (Json.obj exMixedItemFields) = Except.ok exMixedTask
    ∧ exMixedTask.runtimeParameters = [(strLit "mode", Json.str (strLit "fast"))]
    ∧ dictGet exMixedItemFields (strLit "contractVersion") = none
    ∧ exMixedTask.contractVersion = strLit "execution-task/v1"
    ∧ dictGet exMixedItemFields (strLit "artifactRefs") = none
    ∧ exMixedTask.artifactRefs = []
    ∧ dictGet exMixedItemFields (strLit "leaseExpiresAt") = none
    ∧ exMixedTask.leaseExpiresAt = none
    ∧ dictGet ([] : List (Str × Json)) (strLit "taskId") = none
    ∧ ((claimTasks exCfg (HttpResponse.success
         (Json.obj [(strLit "tasks", Json.arr [Json.obj []])]))).2).isOk = false :=
  ⟨rfl, rfl, rfl,
   (C10_claim_item_fields.1 exMixedItemFields exMixedTask rfl).1 rfl,
   rfl,
   (C10_claim_item_fields.1 exMixedItemFields exMixedTask rfl).2.2.1 rfl,
   rfl,
   (C10_claim_item_fields.1 exMixedItemFields exMixedTask rfl).2.2.2 rfl,
   rfl,
   C10_claim_item_fields.2 exCfg [] (strLit "taskId") (Or.inl rfl) rfl⟩

/-- The calls issued by the status-and-complete tail on its success path. -/
theorem statusAndComplete_ok {env : TEnv} {cfg : ExecutorConfig} {task : ExecutionTask}
    {r : RunnerResult} {calls : List ReportCall} {seq : Nat}
    (hok : (statusAndComplete env cfg task r calls seq).2.2 = Except.ok ()) :
    (statusAndComplete env cfg task r calls seq).1 =
      calls ++
        [ReportCall.updateStatus task.taskId seq
           (if pyTruthyDict r.failure then strLit "failed" else strLit "running")
           (if pyTruthyDict r.failure then r.failure else none) r.external,
         ReportCall.complete task.taskId (seq + 1) r.finalStatus r.artifacts r.measurements] := by
  by_cases hf : pyTruthyDict r.failure = true
  · cases hU : env (ReportCall.updateStatus task.taskId seq (strLit "failed")
        r.failure r.external) with
    | some e => simp [statusAndComplete, hf, hU] at hok
    | none =>
      cases hC : env (ReportCall.complete task.taskId (seq + 1) r.finalStatus
          r.artifacts r.measurements) with
      | some e => simp [statusAndComplete, hf, hU, hC] at hok
      | none => simp [statusAndComplete, hf, hU, hC]
  · cases hU : env (ReportCall.updateStatus task.taskId seq (strLit "running")
        none r.external) with
    | some e => simp [statusAndComplete, hf, hU] at hok
    | none =>
      cases hC : env (ReportCall.complete task.taskId (seq + 1) r.finalStatus
          r.artifacts r.measurements) with
      | some e => simp [statusAndComplete, hf, hU, hC] at hok
      | none => simp [statusAndComplete, hf, hU, hC]

/-- C1 (amended): on the success path the calls are exactly heartbeat with
sequence 1, `append_logs` iff the logs are non-empty, `update_status`
(status "failed" with the failure detail iff the failure field is truthy,
i.e. a non-empty mapping; status "running" otherwise), then `complete` with
the result's terminal data; the sequence numbers are consecutive from 1. -/
theorem C1_success_trace (env : TEnv) (cfg : ExecutorConfig) (reg : RunnerRegistry)
    (task : ExecutionTask) (runner : TaskRunner) (r : RunnerResult)
    (hreg : RunnerRegistry.get reg task.adapterId = Except.ok runner)
    (hrun : runner task = Except.ok r)
    (hok : (processTask env cfg reg task).2.2 = Except.ok ()) :
    (processTask env cfg reg task).1 =
      [ReportCall.heartbeat task.taskId 1 (some startingProgress)] ++
      (if r.logs.isEmpty then [] else [ReportCall.appendLogs task.taskId 2 r.logs]) ++
      [ReportCall.updateStatus task.taskId (if r.logs.isEmpty then 2 else 3)
         (if pyTruthyDict r.failure then strLit "failed" else strLit "running")
         (if pyTruthyDict r.failure then r.failure else none) r.external,
       ReportCall.complete task.taskId (if r.logs.isEmpty then 3 else 4)
         r.finalStatus r.artifacts r.measurements]
    ∧ (processTask env cfg reg task).1.map ReportCall.seq =
        List.range' 1 (processTask env cfg reg task).1.length := by
  have htr : (processTask env cfg reg task).1 =
      [ReportCall.heartbeat task.taskId 1 (some startingProgress)] ++
      (if r.logs.isEmpty then [] else [ReportCall.appendLogs task.taskId 2 r.logs]) ++
      [ReportCall.updateStatus task.taskId (if r.logs.isEmpty then 2 else 3)
         (if pyTruthyDict r.failure then strLit "failed" else strLit "running")
         (if pyTruthyDict r.failure then r.failure else none) r.external,
       ReportCall.complete task.taskId (if r.logs.isEmpty then 3 else 4)
         r.finalStatus r.artifacts r.measurements] := by
    cases hB : env (ReportCall.heartbeat task.taskId 1 (some startingProgress)) with
    | some e => simp [processTask, hB] at hok
    | none =>
      by_cases hl : r.logs.isEmpty = true
      · have hok2 : (statusAndComplete env cfg task r
            [ReportCall.heartbeat task.taskId 1 (some startingProgress)] 2).2.2 =
            Except.ok () := by
          simpa [processTask, hB, hreg, hrun, hl] using hok
        simp [processTask, hB, hreg, hrun, hl, statusAndComplete_ok hok2]
      · cases hA : env (ReportCall.appendLogs task.taskId 2 r.logs) with
        | some e => simp [processTask, hB, hreg, hrun, hl, hA] at hok
        | none =>
          have hok2 : (statusAndComplete env cfg task r
              [ReportCall.heartbeat task.taskId 1 (some startingProgress),
               ReportCall.appendLogs task.taskId 2 r.logs] 3).2.2 =
              Except.ok () := by
            simpa [processTask, hB, hreg, hrun, hl, hA] using hok
          simp [processTask, hB, hreg, hrun, hl, hA, statusAndComplete_ok hok2]
  refine ⟨htr, ?_⟩
  rw [htr]
  by_cases hl : r.logs.isEmpty = true <;> by_cases hf : pyTruthyDict r.failure = true <;>
    simp [hl, hf, ReportCall.seq, List.range']

/-- Witness for C1 at concrete inputs: the simulated-success fixture. -/
theorem C1_success_trace_witness :
    RunnerRegistry.get exReg exTask.adapterId = Except.ok exRunnerFD
    ∧ exRunnerFD exTask = Except.ok exResultFD
    ∧ (processTask envAllOk exCfg exReg exTask).2.2 = Except.ok ()
    ∧ ((processTask envAllOk exCfg exReg exTask).1 =
        [ReportCall.heartbeat exTask.taskId 1 (some startingProgress)] ++
        (if exResultFD.logs.isEmpty then []
         else [ReportCall.appendLogs exTask.taskId 2 exResultFD.logs]) ++
        [ReportCall.updateStatus exTask.taskId (if exResultFD.logs.isEmpty then 2 else 3)
           (if pyTruthyDict exResultFD.failure then strLit "failed" else strLit "running")
           (if pyTruthyDict exResultFD.failure then exResultFD.failure else none)
           exResultFD.external,
         ReportCall.complete exTask.taskId (if exResultFD.logs.isEmpty then 3 else 4)
           exResultFD.finalStatus exResultFD.artifacts exResultFD.measurements]
       ∧ (processTask envAllOk exCfg exReg exTask).1.map ReportCall.seq =
           List.range' 1 (processTask envAllOk exCfg exReg exTask).1.length) :=
  ⟨rfl, rfl, rfl,
   C1_success_trace envAllOk exCfg exReg exTask exRunnerFD exResultFD rfl rfl rfl⟩

/-- Counterexample to C1 as stated: a runner result whose `failure` field is
set (to the empty dict) still takes the "running" status branch with no
failure detail, because `if result.failure:` tests Python truthiness. -/
theorem C1_counterexample :
    (processTask envAllOk exCfg exReg exTask).2.2 = Except.ok ()
    ∧ exRunnerFD exTask = Except.ok exResultFD
    ∧ exResultFD.failure.isSome = true
    ∧ (processTask envAllOk exCfg exReg exTask).1 =
        [ReportCall.heartbeat (strLit "t1") 1 (some startingProgress),
         ReportCall.updateStatus (strLit "t1") 2 (strLit "running") none none,
         ReportCall.complete (strLit "t1") 3 (strLit "completed") [] []] :=
  ⟨rfl, rfl, rfl, rfl⟩

/-- C2: after any per-task exception, the only further call attempted is the
single recovery `update_status` with sequence 999999, status "failed" and
failure code EXECUTOR_EXCEPTION / class transient; no `complete` and no
`append_logs` follow the exception, the task does not count as processed, and
the recovery call's own transport outcome is never consulted (mirroring
`except Exception: pass`). -/
theorem C2_failure_path (env : TEnv) (cfg : ExecutorConfig) (reg : RunnerRegistry)
    (task : ExecutionTask) (e : Str)
    (h : (processTask env cfg reg task).2.2 = Except.error e) :
    (handleTask env cfg reg task).1 = (processTask env cfg reg task).1 ++
      [ReportCall.updateStatus task.taskId 999999 (strLit "failed")
         (some (recoveryFailure e)) none]
    ∧ (handleTask env cfg reg task).2.2 = false
    ∧ (List.drop (processTask env cfg reg task).1.length
         (handleTask env cfg reg task).1).all (fun c => !isCompleteCall c) = true
    ∧ (List.drop (processTask env cfg reg task).1.length
         (handleTask env cfg reg task).1).length = 1
    ∧ (List.drop (processTask env cfg reg task).1.length
         (handleTask env cfg reg task).1).all (fun c => !isAppendLogsCall c) = true := by
  rcases hp : processTask env cfg reg task with ⟨calls, events, out⟩
  rw [hp] at h
  simp only at h
  subst h
  refine ⟨?_, ?_, ?_, ?_, ?_⟩ <;>
    simp [handleTask, hp, recoveryCall, List.drop_left, isCompleteCall, isAppendLogsCall]

/-- Witness for C2 at concrete inputs: a failing heartbeat. -/
theorem C2_failure_path_witness :
    (processTask envHbFail exCfg exReg exTask).2.2 = Except.error (strLit "boom")
    ∧ (handleTask envHbFail exCfg exReg exTask).1 =
        (processTask envHbFail exCfg exReg exTask).1 ++
          [ReportCall.updateStatus exTask.taskId 999999 (strLit "failed")
             (some (recoveryFailure (strLit "boom"))) none]
    ∧ (handleTask envHbFail exCfg exReg exTask).2.2 = false :=
  ⟨rfl,
   (C2_failure_path envHbFail exCfg exReg exTask (strLit "boom") rfl).1,
   (C2_failure_path envHbFail exCfg exReg exTask (strLit "boom") rfl).2.1⟩

/-- A task counts as processed exactly when its `_process_task` run returned
normally. -/
theorem handleTask_counted (env : TEnv) (cfg : ExecutorConfig) (reg : RunnerRegistry)
    (t : ExecutionTask) :
    (handleTask env cfg reg t).2.2 = (processTask env cfg reg t).2.2.isOk := by
  rcases hp : processTask env cfg reg t with ⟨calls, events, out⟩
  cases out <;> simp [handleTask, hp, Except.isOk, Except.toBool]

/-- The per-task loop concatenates each task's calls and events in claim
order and counts the tasks whose iteration was marked processed. -/
theorem runTasks_spec (env : CEnv) (cfg : ExecutorConfig) (reg : RunnerRegistry) :
    ∀ (i : Nat) (ts : List ExecutionTask),
      runTasks env cfg reg i ts =
        (((List.enumFrom i ts).map
            (fun p => (handleTask (env p.1) cfg reg p.2).1)).flatten,
         ((List.enumFrom i ts).map
            (fun p => (handleTask (env p.1) cfg reg p.2).2.1)).flatten,
         ((List.enumFrom i ts).filter
            (fun p => (handleTask (env p.1) cfg reg p.2).2.2)).length) := by
  intro i ts
  induction ts generalizing i with
  | nil => rfl
  | cons t ts ih =>
    simp only [runTasks, ih (i + 1), List.enumFrom_cons, List.map_cons,
      List.flatten_cons, List.filter_cons]
    by_cases hcnt : (handleTask (env i) cfg reg t).2.2 = true <;>
      simp [hcnt, Nat.add_comm]

/-- C3: a non-empty cycle processes the claimed tasks one at a time in claim
order (every task contributes its own call segment, regardless of other
tasks' failures), never propagates a per-task exception, and returns the
count of tasks that completed the success path. -/
theorem C3_cycle_isolation (env : CEnv) (cfg : ExecutorConfig) (reg : RunnerRegistry)
    (tasks : List ExecutionTask) (h : tasks ≠ []) :
    runCycle env cfg reg (Except.ok tasks) =
      ((tasks.enum.map (fun p => (handleTask (env p.1) cfg reg p.2).1)).flatten,
       (tasks.enum.map (fun p => (handleTask (env p.1) cfg reg p.2).2.1)).flatten,
       Except.ok (tasks.enum.filter
         (fun p => ((processTask (env p.1) cfg reg p.2).2.2).isOk)).length) := by
  cases tasks with
  | nil => exact absurd rfl h
  | cons t ts =>
    have h3 : ((t :: ts).enum.filter
          (fun p => (handleTask (env p.1) cfg reg p.2).2.2)) =
        ((t :: ts).enum.filter
          (fun p => ((processTask (env p.1) cfg reg p.2).2.2).isOk)) :=
      List.filter_congr (fun p _ => handleTask_counted (env p.1) cfg reg p.2)
    simp only [runCycle, List.enum] at h3 ⊢
    rw [runTasks_spec, h3]

/-- Witness for C3: a cycle with a task whose adapter is unknown followed by
a succeeding task. -/
theorem C3_cycle_isolation_witness :
    ([exBadTask, exTask] : List ExecutionTask) ≠ []
    ∧ runCycle cenvAllOk exCfg exReg (Except.ok [exBadTask, exTask]) =
        (([exBadTask, exTask].enum.map
            (fun p => (handleTask (cenvAllOk p.1) exCfg exReg p.2).1)).flatten,
         ([exBadTask, exTask].enum.map
            (fun p => (handleTask (cenvAllOk p.1) exCfg exReg p.2).2.1)).flatten,
         Except.ok ([exBadTask, exTask].enum.filter
           (fun p => ((processTask (cenvAllOk p.1) exCfg exReg p.2).2.2).isOk)).length) :=
  ⟨by simp, C3_cycle_isolation cenvAllOk exCfg exReg [exBadTask, exTask] (by simp)⟩

/-- Results surviving `_coerce_result` carry a valid terminal status. -/
theorem coerceResult_ok_valid {p : List (Str × Json)} {r : RunnerResult}
    (h : coerceResult p = Except.ok r) : isValidFinal r.finalStatus = true := by
  simp only [coerceResult] at h
  split at h
  · exact Except.noConfusion h
  · next hcond =>
    split at h
    · exact Except.noConfusion h
    · cases h
      simpa using hcond

/-- `_coerce_result` rejects every payload whose rendered final status is
outside the accepted set, before any result value is built. -/
theorem coerceResult_invalid (p : List (Str × Json))
    (h : isValidFinal (renderedFinalStatus p) = false) :
    coerceResult p = Except.error
      (strLit "Invalid final_status from hook/command: " ++ renderedFinalStatus p) := by
  simp [coerceResult, h]

/-- Every result the INTEGRA runner returns carries a valid terminal status:
the simulation branch hard-codes "completed", the pylabrobot branch either
passes `_coerce_result` or falls back to the "failed" failure result. -/
theorem integraRun_ok_valid {ienv : IntegraEnv} {task : ExecutionTask}
    {r : RunnerResult} (h : integraRun ienv task = Except.ok r) :
    isValidFinal r.finalStatus = true := by
  simp only [integraRun] at h
  by_cases hcond : (normBackend ienv.backendRaw == strLit "pylabrobot" &&
      !integraForce ienv task) = true
  · rw [if_pos hcond] at h
    cases hq : runIntegraTask ienv.bridge task with
    | ok r2 =>
      rw [hq] at h
      have h2 : Except.ok r2 = Except.ok r := h
      cases h2
      unfold runIntegraTask at hq
      cases hb : ienv.bridge with
      | error e => rw [hb] at hq; exact Except.noConfusion hq
      | ok payload =>
        rw [hb] at hq
        exact coerceResult_ok_valid hq
    | error e =>
      rw [hq] at h
      have h2 : Except.ok (pylabrobotFailureResult ienv.now e) = Except.ok r := h
      cases h2
      rfl
  · rw [if_neg hcond] at h
    have h2 : Except.ok (simulatedResult ienv.now (normBackend ienv.backendRaw) task) =
        Except.ok r := h
    cases h2
    rfl

/-- The only runner the default registry can resolve is the INTEGRA runner. -/
theorem defaultRegistry_get {ienv : IntegraEnv} {aid : Str} {runner : TaskRunner}
    (h : RunnerRegistry.get (defaultRegistry ienv) aid = Except.ok runner) :
    runner = integraRun ienv := by
  unfold RunnerRegistry.get at h
  cases hd : dictGet (defaultRegistry ienv) (pyLowerN (pyStripN aid)) with
  | none => rw [hd] at h; exact Except.noConfusion h
  | some v =>
    rw [hd] at h
    have h2 : Except.ok v = Except.ok runner := h
    cases h2
    simp only [defaultRegistry, dictGet] at hd
    split at hd
    · exact (Option.some.inj hd).symm
    · exact Option.noConfusion hd

/-- Every call in the status-and-complete tail's trace is either one of the
already-issued calls, the branch's `update_status`, or the `complete` call. -/
theorem statusAndComplete_mem {env : TEnv} {cfg : ExecutorConfig}
    {task : ExecutionTask} {r : RunnerResult} {calls : List ReportCall} {seq : Nat}
    {c : ReportCall}
    (h : c ∈ (statusAndComplete env cfg task r calls seq).1) :
    c ∈ calls ∨
    c = ReportCall.updateStatus task.taskId seq
        (if pyTruthyDict r.failure then strLit "failed" else strLit "running")
        (if pyTruthyDict r.failure then r.failure else none) r.external ∨
    c = ReportCall.complete task.taskId (seq + 1) r.finalStatus r.artifacts
        r.measurements := by
  by_cases hf : pyTruthyDict r.failure = true
  · cases hU : env (ReportCall.updateStatus task.taskId seq (strLit "failed")
        r.failure r.external) with
    | some e =>
      have h2 : c ∈ calls ++ [ReportCall.updateStatus task.taskId seq
          (strLit "failed") r.failure r.external] := by
        simpa [statusAndComplete, hf, hU] using h
      rcases List.mem_append.mp h2 with hc | hc
      · exact Or.inl hc
      · rw [List.mem_singleton] at hc
        exact Or.inr (Or.inl (by simp [hf, hc]))
    | none =>
      cases hC : env (ReportCall.complete task.taskId (seq + 1) r.finalStatus
          r.artifacts r.measurements) with
      | some e =>
        have h2 : c ∈ calls ++ [ReportCall.updateStatus task.taskId seq
            (strLit "failed") r.failure r.external,
            ReportCall.complete task.taskId (seq + 1) r.finalStatus r.artifacts
              r.measurements] := by
          simpa [statusAndComplete, hf, hU, hC] using h
        rcases List.mem_append.mp h2 with hc | hc
        · exact Or.inl hc
        · rcases List.mem_cons.mp hc with hc2 | hc2
          · exact Or.inr (Or.inl (by simp [hf, hc2]))
          · rw [List.mem_singleton] at hc2
            exact Or.inr (Or.inr hc2)
      | none =>
        have h2 : c ∈ calls ++ [ReportCall.updateStatus task.taskId seq
            (strLit "failed") r.failure r.external,
            ReportCall.complete task.taskId (seq + 1) r.finalStatus r.artifacts
              r.measurements] := by
          simpa [statusAndComplete, hf, hU, hC] using h
        rcases List.mem_append.mp h2 with hc | hc
        · exact Or.inl hc
        · rcases List.mem_cons.mp hc with hc2 | hc2
          · exact Or.inr (Or.inl (by simp [hf, hc2]))
          · rw [List.mem_singleton] at hc2
            exact Or.inr (Or.inr hc2)
  · cases hU : env (ReportCall.updateStatus task.taskId seq (strLit "running")
        none r.external) with
    | some e =>
      have h2 : c ∈ calls ++ [ReportCall.updateStatus task.taskId seq
          (strLit "running") none r.external] := by
        simpa [statusAndComplete, hf, hU] using h
      rcases List.mem_append.mp h2 with hc | hc
      · exact Or.inl hc
      · rw [List.mem_singleton] at hc
        exact Or.inr (Or.inl (by simp [hf, hc]))
    | none =>
      cases hC : env (ReportCall.complete task.taskId (seq + 1) r.finalStatus
          r.artifacts r.measurements) with
      | some e =>
        have h2 : c ∈ calls ++ [ReportCall.updateStatus task.taskId seq
            (strLit "running") none r.external,
            ReportCall.complete task.taskId (seq + 1) r.finalStatus r.artifacts
              r.measurements] := by
          simpa [statusAndComplete, hf, hU, hC] using h
        rcases List.mem_append.mp h2 with hc | hc
        · exact Or.inl hc
        · rcases List.mem_cons.mp hc with hc2 | hc2
          · exact Or.inr (Or.inl (by simp [hf, hc2]))
          · rw [List.mem_singleton] at hc2
            exact Or.inr (Or.inr hc2)
      | none =>
        have h2 : c ∈ calls ++ [ReportCall.updateStatus task.taskId seq
            (strLit "running") none r.external,
            ReportCall.complete task.taskId (seq + 1) r.finalStatus r.artifacts
              r.measurements] := by
          simpa [statusAndComplete, hf, hU, hC] using h
        rcases List.mem_append.mp h2 with hc | hc
        · exact Or.inl hc
        · rcases List.mem_cons.mp hc with hc2 | hc2
          · exact Or.inr (Or.inl (by simp [hf, hc2]))
          · rw [List.mem_singleton] at hc2
            exact Or.inr (Or.inr hc2)

/-- A `complete` call in the status-and-complete tail carries the runner
result's terminal status, provided the earlier calls contain no `complete`. -/
theorem statusAndComplete_mem_complete {env : TEnv} {cfg : ExecutorConfig}
    {task : ExecutionTask} {r : RunnerResult} {calls : List ReportCall} {seq : Nat}
    {tid : Str} {sq : Nat} {fs : Str} {a m : List Json}
    (hcalls : ∀ c ∈ calls, isCompleteCall c = false)
    (h : ReportCall.complete tid sq fs a m ∈
        (statusAndComplete env cfg task r calls seq).1) :
    fs = r.finalStatus := by
  rcases statusAndComplete_mem h with hc | hc | hc
  · exact absurd (hcalls _ hc) (by simp [isCompleteCall])
  · by_cases hf : pyTruthyDict r.failure = true <;> simp [hf] at hc
  · simp only [ReportCall.complete.injEq] at hc
    exact hc.2.2.1

/-- Every `complete` call issued by `_process_task` carries the terminal
status of the result the resolved runner returned. -/
theorem processTask_mem_complete {env : TEnv} {cfg : ExecutorConfig}
    {reg : RunnerRegistry} {task : ExecutionTask}
    {tid : Str} {sq : Nat} {fs : Str} {a m : List Json}
    (h : ReportCall.complete tid sq fs a m ∈ (processTask env cfg reg task).1) :
    ∃ runner r, RunnerRegistry.get reg task.adapterId = Except.ok runner ∧
      runner task = Except.ok r ∧ fs = r.finalStatus := by
  cases hB : env (ReportCall.heartbeat task.taskId 1 (some startingProgress)) with
  | some e => simp [processTask, hB] at h
  | none =>
    cases hg : RunnerRegistry.get reg task.adapterId with
    | error e => simp [processTask, hB, hg] at h
    | ok runner =>
      cases hr : runner task with
      | error e => simp [processTask, hB, hg, hr] at h
      | ok r =>
        refine ⟨runner, r, rfl, hr, ?_⟩
        by_cases hl : r.logs.isEmpty = true
        · have h' : ReportCall.complete tid sq fs a m ∈
              (statusAndComplete env cfg task r
                [ReportCall.heartbeat task.taskId 1 (some startingProgress)] 2).1 := by
            simpa [processTask, hB, hg, hr, hl] using h
          refine statusAndComplete_mem_complete ?_ h'
          intro c hc
          rw [List.mem_singleton] at hc
          subst hc
          rfl
        · cases hA : env (ReportCall.appendLogs task.taskId 2 r.logs) with
          | some e => simp [processTask, hB, hg, hr, hl, hA] at h
          | none =>
            have h' : ReportCall.complete tid sq fs a m ∈
                (statusAndComplete env cfg task r
                  [ReportCall.heartbeat task.taskId 1 (some startingProgress),
                   ReportCall.appendLogs task.taskId 2 r.logs] 3).1 := by
              simpa [processTask, hB, hg, hr, hl, hA] using h
            refine statusAndComplete_mem_complete ?_ h'
            intro c hc
            rcases List.mem_cons.mp hc with hc2 | hc2
            · subst hc2; rfl
            · rw [List.mem_singleton] at hc2
              subst hc2; rfl

/-- A `complete` call in a handled task's segment was issued by
`_process_task` (the recovery call is a status update, never a `complete`). -/
theorem handleTask_mem_complete {env : TEnv} {cfg : ExecutorConfig}
    {reg : RunnerRegistry} {task : ExecutionTask}
    {tid : Str} {sq : Nat} {fs : Str} {a m : List Json}
    (h : ReportCall.complete tid sq fs a m ∈ (handleTask env cfg reg task).1) :
    ReportCall.complete tid sq fs a m ∈ (processTask env cfg reg task).1 := by
  rcases hp : processTask env cfg reg task with ⟨calls, events, out⟩
  cases out with
  | ok u => simpa [handleTask, hp] using h
  | error e =>
    simp only [handleTask, hp, recoveryCall] at h
    rcases List.mem_append.mp h with hc | hc
    · exact hc
    · rw [List.mem_singleton] at hc
      exact ReportCall.noConfusion hc

/-- A `complete` call in a cycle's trace belongs to some handled task. -/
theorem runCycle_mem_complete {env : CEnv} {cfg : ExecutorConfig}
    {reg : RunnerRegistry} {claimed : Except Str (List ExecutionTask)}
    {tid : Str} {sq : Nat} {fs : Str} {a m : List Json}
    (h : ReportCall.complete tid sq fs a m ∈ (runCycle env cfg reg claimed).1) :
    ∃ (i : Nat) (t : ExecutionTask),
      ReportCall.complete tid sq fs a m ∈ (handleTask (env i) cfg reg t).1 := by
  cases claimed with
  | error e => simp [runCycle] at h
  | ok tasks =>
    cases tasks with
    | nil => simp [runCycle] at h
    | cons t ts =>
      simp only [runCycle] at h
      rw [runTasks_spec] at h
      simp only [List.mem_flatten, List.mem_map] at h
      obtain ⟨l, ⟨p, hp1, hp2⟩, hmem⟩ := h
      subst hp2
      exact ⟨p.1, p.2, hmem⟩

/-- C4: a payload whose final status is outside {completed, failed, canceled}
is rejected by `_coerce_result` before anything derived from it reaches the
reporting client, and with the default registry no cycle ever issues a
`complete` call whose final status is outside that set. -/
theorem C4_final_status :
    (∀ p : List (Str × Json), isValidFinal (renderedFinalStatus p) = false →
       coerceResult p = Except.error
         (strLit "Invalid final_status from hook/command: " ++ renderedFinalStatus p))
    ∧ (∀ (env : CEnv) (cfg : ExecutorConfig) (ienv : IntegraEnv)
         (claimed : Except Str (List ExecutionTask)) (tid : Str) (sq : Nat)
         (fs : Str) (a m : List Json),
       ReportCall.complete tid sq fs a m ∈
           (runCycle env cfg (defaultRegistry ienv) claimed).1 →
       isValidFinal fs = true) := by
  refine ⟨coerceResult_invalid, ?_⟩
  intro env cfg ienv claimed tid sq fs a m h
  obtain ⟨i, t, hmem⟩ := runCycle_mem_complete h
  obtain ⟨runner, r, hg, hr, hfs⟩ := processTask_mem_complete (handleTask_mem_complete hmem)
  rw [defaultRegistry_get hg] at hr
  rw [hfs]
  exact integraRun_ok_valid hr

/-- Witness for C4: an out-of-set payload is rejected, and the `complete` call
of a concrete simulated cycle carries a valid final status. -/
theorem C4_final_status_witness :
    isValidFinal (renderedFinalStatus
      [(strLit "final_status", Json.str (strLit "done"))]) = false
    ∧ coerceResult [(strLit "final_status", Json.str (strLit "done"))] =
        Except.error (strLit "Invalid final_status from hook/command: " ++
          renderedFinalStatus [(strLit "final_status", Json.str (strLit "done"))])
    ∧ ReportCall.complete (strLit "t1") 4
        (simulatedResult (strLit "T") (strLit "simulate") exIntegraTask).finalStatus
        (simulatedResult (strLit "T") (strLit "simulate") exIntegraTask).artifacts
        (simulatedResult (strLit "T") (strLit "simulate") exIntegraTask).measurements ∈
        (runCycle cenvAllOk exCfg (defaultRegistry exIntegraEnv)
          (Except.ok [exIntegraTask])).1
    ∧ isValidFinal
        (simulatedResult (strLit "T") (strLit "simulate") exIntegraTask).finalStatus =
        true := by
  have htr : (runCycle cenvAllOk exCfg (defaultRegistry exIntegraEnv)
      (Except.ok [exIntegraTask])).1 =
    [ReportCall.heartbeat (strLit "t1") 1 (some startingProgress),
     ReportCall.appendLogs (strLit "t1") 2
       (simulatedResult (strLit "T") (strLit "simulate") exIntegraTask).logs,
     ReportCall.updateStatus (strLit "t1") 3 (strLit "running") none
       (simulatedResult (strLit "T") (strLit "simulate") exIntegraTask).external,
     ReportCall.complete (strLit "t1") 4
       (simulatedResult (strLit "T") (strLit "simulate") exIntegraTask).finalStatus
       (simulatedResult (strLit "T") (strLit "simulate") exIntegraTask).artifacts
       (simulatedResult (strLit "T") (strLit "simulate") exIntegraTask).measurements] :=
    rfl
  have hmem : ReportCall.complete (strLit "t1") 4
      (simulatedResult (strLit "T") (strLit "simulate") exIntegraTask).finalStatus
      (simulatedResult (strLit "T") (strLit "simulate") exIntegraTask).artifacts
      (simulatedResult (strLit "T") (strLit "simulate") exIntegraTask).measurements ∈
      (runCycle cenvAllOk exCfg (defaultRegistry exIntegraEnv)
        (Except.ok [exIntegraTask])).1 := by
    rw [htr]
    exact List.mem_cons_of_mem _ (List.mem_cons_of_mem _ (List.mem_cons_of_mem _
      (List.mem_cons_self _ _)))
  exact ⟨rfl,
    C4_final_status.1 [(strLit "final_status", Json.str (strLit "done"))] rfl,
    hmem,
    C4_final_status.2 cenvAllOk exCfg exIntegraEnv (Except.ok [exIntegraTask])
      (strLit "t1") 4
      (simulatedResult (strLit "T") (strLit "simulate") exIntegraTask).finalStatus
      (simulatedResult (strLit "T") (strLit "simulate") exIntegraTask).artifacts
      (simulatedResult (strLit "T") (strLit "simulate") exIntegraTask).measurements
      hmem⟩

end ExecSvc
